import Mathlib

/-!
Verification development for the media-pipeline cleanup engine
(`scripts/media_mapper.py` and `scripts/cleanup.py`).

The Python code is shallowly embedded: pure helpers become Lean functions
over `List Char` / `String` / `Int`; the stateful `MediaMapper` becomes
explicit state passing over a `MapperState` record; HTTP collaborators are
modelled by a `World` record supplying each endpoint's response as an
`Except`-value (a transport failure or raised HTTP status maps to
`PyErr.transport`); timestamps are integers (seconds on the UTC timeline,
the strings having been parsed upstream); a run is modelled at one fixed
instant `now`.  Python dictionaries become insertion-ordered association
lists built by `upsert`, matching dict iteration order.  Percent-decoding
is modelled byte-wise (faithful for single-byte escapes; Python applies a
further UTF-8 decode to multi-byte runs, which none of the properties here
touch).
-/

namespace MediaPipeline

/-- Python `s.replace(pat, "")`, fuelled so that it is structurally
recursive (each step consumes at least one character, so `fuel = length`
suffices): remove every (non-overlapping, left-to-right) occurrence of
`pat`; for an empty `pat` Python returns the string unchanged when the
replacement is empty. -/
def removeOccsFuel (pat : List Char) : Nat → List Char → List Char
  | _, [] => []
  | 0, l => l
  | fuel + 1, c :: cs =>
    if pat ≠ [] ∧ pat.isPrefixOf (c :: cs) then
      removeOccsFuel pat fuel (List.drop (pat.length - 1) cs)
    else
      c :: removeOccsFuel pat fuel cs

/-- Python `s.replace(pat, "")` on character lists. -/
def removeOccs (pat l : List Char) : List Char :=
  removeOccsFuel pat l.length l

/-- ASCII hex-digit test, as `urllib.parse.unquote` accepts. -/
def isHexDigit (c : Char) : Bool :=
  (48 ≤ c.toNat && c.toNat ≤ 57) || (97 ≤ c.toNat && c.toNat ≤ 102) ||
    (65 ≤ c.toNat && c.toNat ≤ 70)

/-- Numeric value of an ASCII hex digit. -/
def hexVal (c : Char) : Nat :=
  if 48 ≤ c.toNat && c.toNat ≤ 57 then c.toNat - 48
  else if 97 ≤ c.toNat then c.toNat - 87
  else c.toNat - 55

/-- `urllib.parse.unquote`, modelled byte-wise: each `%HH` with two hex
digits becomes the character of that byte value, anything else is copied
verbatim. -/
def unquoteChars : List Char → List Char
  | [] => []
  | c :: a :: b :: rest =>
    if c = '%' ∧ isHexDigit a = true ∧ isHexDigit b = true then
      Char.ofNat (16 * hexVal a + hexVal b) :: unquoteChars rest
    else
      c :: unquoteChars (a :: b :: rest)
  | c :: rest => c :: unquoteChars rest

/-- Python `s.strip("/")`: drop leading and trailing `'/'` characters. -/
def stripSlashes (l : List Char) : List Char :=
  ((l.dropWhile (· == '/')).reverse.dropWhile (· == '/')).reverse

/-- `MediaMapper._normalize_path`: `path.replace(prefix_to_remove, "")`,
then `unquote`, then `.strip("/")`. -/
def normalize_path (path preToRemove : String) : String :=
  ⟨stripSlashes (unquoteChars (removeOccs preToRemove.data path.data))⟩

/-- Boolean substring test (Python `pat in s`), used only to state when the
prefix is absent from a path. -/
def containsSub (pat : List Char) : List Char → Bool
  | [] => pat.isEmpty
  | c :: cs => pat.isPrefixOf (c :: cs) || containsSub pat cs

/-- Modelled from the spec: the spec's reading of the normalizer, which
strips the mount prefix only when it occurs at the START of the path
(a no-op otherwise), then percent-decodes, then strips separators.
Used solely to compare the spec's words against the source's
`_normalize_path`. -/
def normalize_path_spec (path preToRemove : String) : String :=
  let stripped :=
    if preToRemove.data ≠ [] ∧ preToRemove.data.isPrefixOf path.data then
      path.data.drop preToRemove.data.length
    else
      path.data
  ⟨stripSlashes (unquoteChars stripped)⟩

/-! ## Data model

Catalog and watch-state records carry exactly the fields the cleanup engine
reads.  `path` on a catalog record is the file path (`movieFile.path` /
`episodeFile.path`); records without a file never enter the caches.  On a
watched item, optional JSON fields are `Option`-valued with the `.get`
defaults of the source applied at use sites. -/

/-- An exception escaping a collaborator call: a failed HTTP request or a
non-success status raised by `raise_for_status` (`transport`), or a Python
`KeyError` from a dictionary lookup. -/
inductive PyErr
  | transport (code : Nat)
  | keyError
deriving Repr, DecidableEq

/-- Decidable equality for `Except` results, so that witnesses can be
checked by evaluation. -/
instance exceptDecEq {E A : Type} [DecidableEq E] [DecidableEq A] :
    DecidableEq (Except E A) := fun a b =>
  match a, b with
  | .error e1, .error e2 =>
    if h : e1 = e2 then isTrue (by rw [h])
    else isFalse (by intro hc; cases hc; exact h rfl)
  | .ok v1, .ok v2 =>
    if h : v1 = v2 then isTrue (by rw [h])
    else isFalse (by intro hc; cases hc; exact h rfl)
  | .error _, .ok _ => isFalse (by intro hc; cases hc)
  | .ok _, .error _ => isFalse (by intro hc; cases hc)

/-- A Radarr movie record, restricted to the consumed fields. -/
structure RadarrMovie where
  id : Nat
  hasFile : Bool
  path : String
  tmdbId : Option Int
  tags : List Nat
deriving Repr, DecidableEq

/-- A Sonarr series record; only its id is ever consumed. -/
structure SonarrSeries where
  id : Nat
deriving Repr, DecidableEq

/-- A Sonarr episode record, restricted to the consumed fields. -/
structure SonarrEpisode where
  hasFile : Bool
  path : String
  episodeFileId : Nat
deriving Repr, DecidableEq

/-- A watched movie reported by Jellyfin.  `lastPlayed` is the parsed
`UserData.LastPlayedDate` as seconds on the UTC timeline; `tmdbId` is
`ProviderIds.Tmdb`. -/
structure WatchedMovie where
  name : String
  path : Option String
  lastPlayed : Option Int
  tmdbId : Option String
deriving Repr, DecidableEq

/-- A watched episode reported by Jellyfin. -/
structure WatchedEpisode where
  seriesName : Option String
  path : Option String
  lastPlayed : Option Int
deriving Repr, DecidableEq

/-- The HTTP collaborators: each endpoint's response for this run, either a
payload or a raised error. -/
structure World where
  radarrMovies : Except PyErr (List RadarrMovie)
  radarrTags : Except PyErr (List (Nat × String))
  sonarrSeries : Except PyErr (List SonarrSeries)
  sonarrEpisodes : Nat → Except PyErr (List SonarrEpisode)
  sonarrTags : Except PyErr (List (Nat × String))
  deleteMovieStatus : Nat → Except PyErr Nat
  deleteEpisodeFileStatus : Nat → Except PyErr Nat
  bulkDeleteEpisodeFilesStatus : List Nat → Except PyErr Nat
  watchedMovies : Except PyErr (List WatchedMovie)
  watchedEpisodes : Except PyErr (List WatchedEpisode)

/-- A network request issued by the mapper (used to state that dry-run
issues none and that a populated cache is not re-fetched). -/
inductive Call
  | fetchRadarrMovies
  | fetchRadarrTags
  | fetchSonarrSeries
  | fetchSonarrEpisodes (seriesId : Nat)
  | fetchSonarrTags
  | deleteMovie (movieId : Nat)
  | deleteEpisodeFile (episodeFileId : Nat)
  | bulkDeleteEpisodeFiles (episodeFileIds : List Nat)
deriving Repr, DecidableEq

/-- The `MediaMapper` per-run caches.  Python dictionaries are modelled as
insertion-ordered association lists; the two-key `_tags_cache` dictionary
becomes one optional field per service. -/
structure MapperState where
  moviesCache : Option (List (Nat × RadarrMovie))
  seriesCache : Option (List (Nat × SonarrSeries))
  episodesCache : List (Nat × List SonarrEpisode)
  radarrTagsCache : Option (List (Nat × String))
  sonarrTagsCache : Option (List (Nat × String))
deriving Repr, DecidableEq

/-- The caches of a freshly constructed `MediaMapper`. -/
def MapperState.init : MapperState :=
  { moviesCache := none, seriesCache := none, episodesCache := [],
    radarrTagsCache := none, sonarrTagsCache := none }

/-- The cleanup configuration fields the core consumes (`_prefix` fields of
the source are rendered `_pre` here).  Credentials and base URLs live in
the `World`. -/
structure CleanupConfig where
  grace_period_days : Int
  dry_run : Bool
  keep_tag_label : String
  jellyfin_movie_pre : String
  jellyfin_tv_pre : String
  radarr_pre : String
  sonarr_pre : String
deriving Repr, DecidableEq

/-- `CleanupStats`, one counter per outcome category. -/
structure CleanupStats where
  movies_watched : Nat
  movies_eligible : Nat
  movies_skipped_tag : Nat
  movies_skipped_not_found : Nat
  movies_deleted : Nat
  movies_failed : Nat
  episodes_watched : Nat
  episodes_eligible : Nat
  episodes_skipped_tag : Nat
  episodes_skipped_not_found : Nat
  episodes_deleted : Nat
  episodes_failed : Nat
deriving Repr, DecidableEq

/-- All-zero statistics of a fresh run. -/
def CleanupStats.init : CleanupStats :=
  { movies_watched := 0, movies_eligible := 0, movies_skipped_tag := 0,
    movies_skipped_not_found := 0, movies_deleted := 0, movies_failed := 0,
    episodes_watched := 0, episodes_eligible := 0, episodes_skipped_tag := 0,
    episodes_skipped_not_found := 0, episodes_deleted := 0,
    episodes_failed := 0 }

/-- Python dictionary insertion: update the entry if the key exists
(keeping its position), otherwise append. -/
def upsert {α : Type} (d : List (Nat × α)) (k : Nat) (v : α) : List (Nat × α) :=
  if d.any (fun p => p.1 = k) then
    d.map (fun p => if p.1 = k then (k, v) else p)
  else
    d ++ [(k, v)]

/-- `{m['id']: m for m in movies if m.get('hasFile')}`. -/
def dictOfRadarrMovies (ms : List RadarrMovie) : List (Nat × RadarrMovie) :=
  ms.foldl (fun d m => if m.hasFile then upsert d m.id m else d) []

/-- `{s['id']: s for s in series}`. -/
def dictOfSonarrSeries (ss : List SonarrSeries) : List (Nat × SonarrSeries) :=
  ss.foldl (fun d sr => upsert d sr.id sr) []

/-- `{tag['id']: tag['label'] for tag in tags}`. -/
def dictOfTags (tags : List (Nat × String)) : List (Nat × String) :=
  tags.foldl (fun d t => upsert d t.1 t.2) []

/-- Python truthiness of an optional integer id (`if not radarr_movie_id`),
under which both `None` and `0` are falsy. -/
def truthyNat : Option Nat → Bool
  | none => false
  | some n => n != 0

/-- `MediaMapper._get_all_radarr_movies`: populate the movie cache on first
access (filtered to entries with a file), afterwards serve it without a
request. -/
def get_all_radarr_movies (w : World) (st : MapperState) :
    Except PyErr (List (Nat × RadarrMovie) × MapperState × List Call) :=
  match st.moviesCache with
  | some d => .ok (d, st, [])
  | none =>
    match w.radarrMovies with
    | .error e => .error e
    | .ok ms =>
      let d := dictOfRadarrMovies ms
      .ok (d, { st with moviesCache := some d }, [Call.fetchRadarrMovies])

/-- `MediaMapper._get_all_sonarr_series` (cached). -/
def get_all_sonarr_series (w : World) (st : MapperState) :
    Except PyErr (List (Nat × SonarrSeries) × MapperState × List Call) :=
  match st.seriesCache with
  | some d => .ok (d, st, [])
  | none =>
    match w.sonarrSeries with
    | .error e => .error e
    | .ok ss =>
      let d := dictOfSonarrSeries ss
      .ok (d, { st with seriesCache := some d }, [Call.fetchSonarrSeries])

/-- `MediaMapper._get_sonarr_episodes` (cached per series, filtered to
episodes with a file). -/
def get_sonarr_episodes (w : World) (st : MapperState) (seriesId : Nat) :
    Except PyErr (List SonarrEpisode × MapperState × List Call) :=
  match st.episodesCache.lookup seriesId with
  | some eps => .ok (eps, st, [])
  | none =>
    match w.sonarrEpisodes seriesId with
    | .error e => .error e
    | .ok eps =>
      let filtered := eps.filter (fun ep => ep.hasFile)
      .ok (filtered,
        { st with episodesCache := upsert st.episodesCache seriesId filtered },
        [Call.fetchSonarrEpisodes seriesId])

/-- `MediaMapper.get_radarr_tags` (cached). -/
def get_radarr_tags (w : World) (st : MapperState) :
    Except PyErr (List (Nat × String) × MapperState × List Call) :=
  match st.radarrTagsCache with
  | some d => .ok (d, st, [])
  | none =>
    match w.radarrTags with
    | .error e => .error e
    | .ok ts =>
      let d := dictOfTags ts
      .ok (d, { st with radarrTagsCache := some d }, [Call.fetchRadarrTags])

/-- `MediaMapper.get_sonarr_tags` (cached). -/
def get_sonarr_tags (w : World) (st : MapperState) :
    Except PyErr (List (Nat × String) × MapperState × List Call) :=
  match st.sonarrTagsCache with
  | some d => .ok (d, st, [])
  | none =>
    match w.sonarrTags with
    | .error e => .error e
    | .ok ts =>
      let d := dictOfTags ts
      .ok (d, { st with sonarrTagsCache := some d }, [Call.fetchSonarrTags])

/-- `MediaMapper.find_radarr_movie_by_path`: linear scan of the cached
catalog for an exact match on normalized paths; `None` when unmatched. -/
def find_radarr_movie_by_path (w : World) (cfg : CleanupConfig)
    (st : MapperState) (jellyfinPath : String) :
    Except PyErr (Option Nat × MapperState) :=
  match get_all_radarr_movies w st with
  | .error e => .error e
  | .ok (movies, st', _) =>
    let jn := normalize_path jellyfinPath cfg.jellyfin_movie_pre
    match movies.find? (fun p =>
        p.2.hasFile && (normalize_path p.2.path cfg.radarr_pre == jn)) with
    | some p => .ok (some p.1, st')
    | none => .ok (none, st')

/-- `str(movie.get('tmdbId'))`: Python renders a missing id as `"None"`. -/
def tmdbIdStr : Option Int → String
  | none => "None"
  | some n => toString n

/-- `MediaMapper.find_radarr_movie_by_tmdb`: fallback scan comparing the
string renderings of the TMDb ids. -/
def find_radarr_movie_by_tmdb (w : World) (st : MapperState)
    (tmdbId : String) : Except PyErr (Option Nat × MapperState) :=
  match get_all_radarr_movies w st with
  | .error e => .error e
  | .ok (movies, st', _) =>
    match movies.find? (fun p => tmdbIdStr p.2.tmdbId == tmdbId) with
    | some p => .ok (some p.1, st')
    | none => .ok (none, st')

/-- `MediaMapper.delete_radarr_movie`: dry-run returns success with no
request; real mode issues the delete and, on HTTP 200, removes the single
entry from a truthy movie cache. -/
def delete_radarr_movie (w : World) (st : MapperState) (movieId : Nat)
    (dryRun : Bool) : Except PyErr (Bool × MapperState × List Call) :=
  if dryRun then .ok (true, st, [])
  else
    match w.deleteMovieStatus movieId with
    | .error e => .error e
    | .ok status =>
      if status = 200 then
        let st' :=
          match st.moviesCache with
          | some d =>
            if d ≠ [] ∧ d.any (fun p => p.1 = movieId) then
              { st with moviesCache := some (d.filter (fun p => p.1 != movieId)) }
            else st
          | none => st
        .ok (true, st', [Call.deleteMovie movieId])
      else .ok (false, st, [Call.deleteMovie movieId])

/-- `MediaMapper.delete_sonarr_episode_file`: dry-run returns success with
no request; real mode, on HTTP 200, clears the entire episode cache. -/
def delete_sonarr_episode_file (w : World) (st : MapperState)
    (episodeFileId : Nat) (dryRun : Bool) :
    Except PyErr (Bool × MapperState × List Call) :=
  if dryRun then .ok (true, st, [])
  else
    match w.deleteEpisodeFileStatus episodeFileId with
    | .error e => .error e
    | .ok status =>
      if status = 200 then
        .ok (true, { st with episodesCache := [] },
          [Call.deleteEpisodeFile episodeFileId])
      else .ok (false, st, [Call.deleteEpisodeFile episodeFileId])

/-- `MediaMapper.bulk_delete_sonarr_episode_files`: batched variant, same
cache contract (full clear on success). -/
def bulk_delete_sonarr_episode_files (w : World) (st : MapperState)
    (episodeFileIds : List Nat) (dryRun : Bool) :
    Except PyErr (Bool × MapperState × List Call) :=
  if dryRun then .ok (true, st, [])
  else
    match w.bulkDeleteEpisodeFilesStatus episodeFileIds with
    | .error e => .error e
    | .ok status =>
      if status = 200 then
        .ok (true, { st with episodesCache := [] },
          [Call.bulkDeleteEpisodeFiles episodeFileIds])
      else .ok (false, st, [Call.bulkDeleteEpisodeFiles episodeFileIds])

/-- Inner loop of `find_sonarr_episode_by_path` over the series ids to
search. -/
def find_episode_in_series_list (w : World) (cfg : CleanupConfig)
    (jn : String) : List Nat → MapperState →
    Except PyErr (Option Nat × MapperState)
  | [], st => .ok (none, st)
  | sid :: rest, st =>
    match get_sonarr_episodes w st sid with
    | .error e => .error e
    | .ok (eps, st', _) =>
      match eps.find? (fun ep =>
          ep.hasFile && (normalize_path ep.path cfg.sonarr_pre == jn)) with
      | some ep => .ok (some ep.episodeFileId, st')
      | none => find_episode_in_series_list w cfg jn rest st'

/-- `MediaMapper.find_sonarr_episode_by_path`: a truthy `series_id`
restricts the scan to that series, otherwise every series is searched. -/
def find_sonarr_episode_by_path (w : World) (cfg : CleanupConfig)
    (st : MapperState) (jellyfinPath : String) (seriesId : Option Nat) :
    Except PyErr (Option Nat × MapperState) :=
  let jn := normalize_path jellyfinPath cfg.jellyfin_tv_pre
  if truthyNat seriesId then
    find_episode_in_series_list w cfg jn [seriesId.getD 0] st
  else
    match get_all_sonarr_series w st with
    | .error e => .error e
    | .ok (sd, st', _) =>
      find_episode_in_series_list w cfg jn (sd.map (fun p => p.1)) st'

/-! ## Policy helpers and the orchestrator -/

/-- ASCII `str.lower` on one character. -/
def lowerChar (c : Char) : Char :=
  if 65 ≤ c.toNat ∧ c.toNat ≤ 90 then Char.ofNat (c.toNat + 32) else c

/-- ASCII `str.lower`. -/
def lowerStr (s : String) : String :=
  ⟨s.data.map lowerChar⟩

/-- Core of `MediaCleanup._get_keep_tag_id`: first tag id whose label
matches the keep label case-insensitively, `None` when no label matches
(the function's return value is the same in both branches of its logging
`if`). -/
def get_keep_tag_id (tags : List (Nat × String)) (label : String) :
    Option Nat :=
  (tags.find? (fun p => lowerStr p.2 == lowerStr label)).map (fun p => p.1)

/-- `MediaCleanup._has_keep_tag`: `False` when no keep-tag id was resolved,
otherwise membership of the id in the item's tag list. -/
def has_keep_tag (itemTags : List Nat) (keepTagId : Option Nat) : Bool :=
  match keepTagId with
  | none => false
  | some t => itemTags.contains t

/-- `MediaCleanup._is_past_grace_period`: strictly before
`now − gracePeriodDays` (days are 86400 seconds). -/
def is_past_grace_period (lastPlayed now gracePeriodDays : Int) : Bool :=
  decide (lastPlayed < now - gracePeriodDays * 86400)

/-- Per-item classification of the decision pipeline. -/
inductive Outcome
  | unknownSkip
  | graceSkip
  | notFoundSkip
  | tagSkip
  | deleted
  | failedDel
deriving Repr, DecidableEq

/-- The outcomes in which the item was counted eligible (reached step 3 of
the pipeline). -/
def Outcome.isEligible : Outcome → Bool
  | .unknownSkip => false
  | .graceSkip => false
  | _ => true

/-- The movie-resolution chain of `cleanup_movies` lines 229-235: path
match first, then — when the first result is falsy and the item carries a
truthy TMDb id — the TMDb fallback, whose result replaces the first. -/
def resolve_radarr_movie (w : World) (cfg : CleanupConfig) (st : MapperState)
    (moviePath : String) (tmdbId : Option String) :
    Except PyErr (Option Nat × MapperState) :=
  match find_radarr_movie_by_path w cfg st moviePath with
  | .error e => .error e
  | .ok (r0, st1) =>
    if truthyNat r0 then .ok (r0, st1)
    else
      match tmdbId with
      | some tid =>
        if tid ≠ "" then find_radarr_movie_by_tmdb w st1 tid
        else .ok (r0, st1)
      | none => .ok (r0, st1)

/-- The per-movie body of `MediaCleanup.cleanup_movies`.  On an escaping
exception the statistics at the moment of the raise accompany the error
(the orchestrator's `finally` prints them). -/
def process_movie (cfg : CleanupConfig) (radarrKeepTagId : Option Nat)
    (now : Int) (w : World) (m : WatchedMovie) (s : CleanupStats)
    (st : MapperState) :
    Except (PyErr × CleanupStats) (Outcome × CleanupStats × MapperState) :=
  match m.lastPlayed with
  | none => .ok (.unknownSkip, s, st)
  | some lp =>
    if is_past_grace_period lp now cfg.grace_period_days then
      let s1 := { s with movies_eligible := s.movies_eligible + 1 }
      match resolve_radarr_movie w cfg st (m.path.getD "unknown") m.tmdbId with
      | .error e => .error (e, s1)
      | .ok (r, st2) =>
        if truthyNat r then
          match get_all_radarr_movies w st2 with
          | .error e => .error (e, s1)
          | .ok (movies, st3, _) =>
            match movies.lookup (r.getD 0) with
            | none => .error (.keyError, s1)
            | some mv =>
              if has_keep_tag mv.tags radarrKeepTagId then
                .ok (.tagSkip,
                  { s1 with movies_skipped_tag := s1.movies_skipped_tag + 1 },
                  st3)
              else
                match delete_radarr_movie w st3 (r.getD 0) cfg.dry_run with
                | .error e => .error (e, s1)
                | .ok (succ, st4, _) =>
                  if succ then
                    .ok (.deleted,
                      { s1 with movies_deleted := s1.movies_deleted + 1 }, st4)
                  else
                    .ok (.failedDel,
                      { s1 with movies_failed := s1.movies_failed + 1 }, st4)
        else
          .ok (.notFoundSkip,
            { s1 with movies_skipped_not_found :=
                s1.movies_skipped_not_found + 1 },
            st2)
    else .ok (.graceSkip, s, st)

/-- The `for movie in watched_movies` loop. -/
def movies_loop (cfg : CleanupConfig) (radarrKeepTagId : Option Nat)
    (now : Int) (w : World) : List WatchedMovie → CleanupStats →
    MapperState → Except (PyErr × CleanupStats) (CleanupStats × MapperState)
  | [], s, st => .ok (s, st)
  | m :: ms, s, st =>
    match process_movie cfg radarrKeepTagId now w m s st with
    | .error e => .error e
    | .ok (_, s', st') => movies_loop cfg radarrKeepTagId now w ms s' st'

/-- `MediaCleanup.cleanup_movies`. -/
def cleanup_movies (cfg : CleanupConfig) (radarrKeepTagId : Option Nat)
    (now : Int) (w : World) (s : CleanupStats) (st : MapperState) :
    Except (PyErr × CleanupStats) (CleanupStats × MapperState) :=
  match w.watchedMovies with
  | .error e => .error (e, s)
  | .ok items =>
    movies_loop cfg radarrKeepTagId now w items
      { s with movies_watched := items.length } st

/-- The per-episode body of `MediaCleanup.cleanup_episodes` (no tag check
exists for episodes). -/
def process_episode (cfg : CleanupConfig) (now : Int) (w : World)
    (ep : WatchedEpisode) (s : CleanupStats) (st : MapperState) :
    Except (PyErr × CleanupStats) (Outcome × CleanupStats × MapperState) :=
  match ep.lastPlayed with
  | none => .ok (.unknownSkip, s, st)
  | some lp =>
    if is_past_grace_period lp now cfg.grace_period_days then
      let s1 := { s with episodes_eligible := s.episodes_eligible + 1 }
      match find_sonarr_episode_by_path w cfg st (ep.path.getD "unknown") none with
      | .error e => .error (e, s1)
      | .ok (r, st1) =>
        if truthyNat r then
          match delete_sonarr_episode_file w st1 (r.getD 0) cfg.dry_run with
          | .error e => .error (e, s1)
          | .ok (succ, st2, _) =>
            if succ then
              .ok (.deleted,
                { s1 with episodes_deleted := s1.episodes_deleted + 1 }, st2)
            else
              .ok (.failedDel,
                { s1 with episodes_failed := s1.episodes_failed + 1 }, st2)
        else
          .ok (.notFoundSkip,
            { s1 with episodes_skipped_not_found :=
                s1.episodes_skipped_not_found + 1 },
            st1)
    else .ok (.graceSkip, s, st)

/-- One insertion into the `episodes_by_series` dictionary: append to the
series' bucket, creating it at the end on first sight. -/
def add_to_group : List (String × List WatchedEpisode) → String →
    WatchedEpisode → List (String × List WatchedEpisode)
  | [], n, ep => [(n, [ep])]
  | (k, l) :: gs, n, ep =>
    if k = n then (k, l ++ [ep]) :: gs else (k, l) :: add_to_group gs n ep

/-- The grouping of watched episodes by series name (reporting only). -/
def group_by_series (eps : List WatchedEpisode) :
    List (String × List WatchedEpisode) :=
  eps.foldl (fun gs ep => add_to_group gs (ep.seriesName.getD "Unknown") ep) []

/-- The nested `for` loops over the grouped episodes, flattened in
iteration order. -/
def episodes_loop (cfg : CleanupConfig) (now : Int) (w : World) :
    List WatchedEpisode → CleanupStats → MapperState →
    Except (PyErr × CleanupStats) (CleanupStats × MapperState)
  | [], s, st => .ok (s, st)
  | ep :: eps, s, st =>
    match process_episode cfg now w ep s st with
    | .error e => .error e
    | .ok (_, s', st') => episodes_loop cfg now w eps s' st'

/-- `MediaCleanup.cleanup_episodes`. -/
def cleanup_episodes (cfg : CleanupConfig) (now : Int) (w : World)
    (s : CleanupStats) (st : MapperState) :
    Except (PyErr × CleanupStats) (CleanupStats × MapperState) :=
  match w.watchedEpisodes with
  | .error e => .error (e, s)
  | .ok items =>
    let flat := (group_by_series items).foldr (fun g acc => g.2 ++ acc) []
    episodes_loop cfg now w flat
      { s with episodes_watched := items.length } st

/-- `MediaCleanup.run`: movies phase then episodes phase, with the
statistics printed by the `finally` block returned alongside the outcome
(first component: the run's result or the re-raised exception; second
component: the statistics the summary printed). -/
def run_cleanup (cfg : CleanupConfig) (radarrKeepTagId : Option Nat)
    (now : Int) (w : World) : Except PyErr CleanupStats × CleanupStats :=
  match cleanup_movies cfg radarrKeepTagId now w CleanupStats.init
      MapperState.init with
  | .error (e, s) => (.error e, s)
  | .ok (s1, st1) =>
    match cleanup_episodes cfg now w s1 st1 with
    | .error (e, s2) => (.error e, s2)
    | .ok (s2, _) => (.ok s2, s2)

/-- The statistics increment determined by a movie outcome (used to state
the accounting invariant). -/
def applyMovieOutcome (o : Outcome) (s : CleanupStats) : CleanupStats :=
  match o with
  | .unknownSkip => s
  | .graceSkip => s
  | .notFoundSkip =>
    { s with
      movies_eligible := s.movies_eligible + 1,
      movies_skipped_not_found := s.movies_skipped_not_found + 1 }
  | .tagSkip =>
    { s with
      movies_eligible := s.movies_eligible + 1,
      movies_skipped_tag := s.movies_skipped_tag + 1 }
  | .deleted =>
    { s with
      movies_eligible := s.movies_eligible + 1,
      movies_deleted := s.movies_deleted + 1 }
  | .failedDel =>
    { s with
      movies_eligible := s.movies_eligible + 1,
      movies_failed := s.movies_failed + 1 }

/-- The statistics increment determined by an episode outcome. -/
def applyEpisodeOutcome (o : Outcome) (s : CleanupStats) : CleanupStats :=
  match o with
  | .unknownSkip => s
  | .graceSkip => s
  | .notFoundSkip =>
    { s with
      episodes_eligible := s.episodes_eligible + 1,
      episodes_skipped_not_found := s.episodes_skipped_not_found + 1 }
  | .tagSkip =>
    { s with
      episodes_eligible := s.episodes_eligible + 1,
      episodes_skipped_tag := s.episodes_skipped_tag + 1 }
  | .deleted =>
    { s with
      episodes_eligible := s.episodes_eligible + 1,
      episodes_deleted := s.episodes_deleted + 1 }
  | .failedDel =>
    { s with
      episodes_eligible := s.episodes_eligible + 1,
      episodes_failed := s.episodes_failed + 1 }

/-- Statistics component of a pipeline result, whether the item completed
or aborted the run. -/
def resultStats :
    Except (PyErr × CleanupStats) (Outcome × CleanupStats × MapperState) →
    CleanupStats
  | .error (_, s) => s
  | .ok (_, s, _) => s

/-! ## Concrete inputs used by witnesses and counterexamples -/

/-- A small concrete configuration (the source's default prefixes). -/
def exCfg : CleanupConfig :=
  { grace_period_days := 5, dry_run := true, keep_tag_label := "keep",
    jellyfin_movie_pre := "/media/movies/", jellyfin_tv_pre := "/media/tv/",
    radarr_pre := "/movies/", sonarr_pre := "/tv/" }

/-- A Radarr movie whose database id is `0` (falsy in Python). -/
def exMovieIdZero : RadarrMovie :=
  { id := 0, hasFile := true, path := "/movies/X.mkv", tmdbId := some 9,
    tags := [] }

/-- A Radarr movie with id `3` and TMDb id `7`. -/
def exMovieIdThree : RadarrMovie :=
  { id := 3, hasFile := true, path := "/movies/Y.mkv", tmdbId := some 7,
    tags := [4] }

/-- A world in which Radarr holds the two example movies and every other
endpoint answers trivially. -/
def exWorld : World :=
  { radarrMovies := .ok [exMovieIdZero, exMovieIdThree],
    radarrTags := .ok [(4, "keep")],
    sonarrSeries := .ok [],
    sonarrEpisodes := fun _ => .ok [],
    sonarrTags := .ok [],
    deleteMovieStatus := fun _ => .ok 200,
    deleteEpisodeFileStatus := fun _ => .ok 200,
    bulkDeleteEpisodeFilesStatus := fun _ => .ok 200,
    watchedMovies := .ok [],
    watchedEpisodes := .ok [] }

/-- The example world with every delete answering HTTP 500. -/
def exWorldFail : World :=
  { exWorld with
    deleteMovieStatus := fun _ => .ok 500,
    deleteEpisodeFileStatus := fun _ => .ok 500,
    bulkDeleteEpisodeFilesStatus := fun _ => .ok 500 }

/-- The example world whose watched-episode listing raises a transport
error. -/
def exWorldEpErr : World :=
  { exWorld with watchedEpisodes := .error (.transport 503) }

/-- A mapper state with every cache already populated. -/
def exStCached : MapperState :=
  { moviesCache := some [(3, exMovieIdThree)],
    seriesCache := some [(2, { id := 2 })],
    episodesCache := [(2, [])],
    radarrTagsCache := some [(4, "keep")],
    sonarrTagsCache := some [] }

/-- A watched movie with no recorded last-played timestamp. -/
def exWatchedNoDate : WatchedMovie :=
  { name := "X", path := some "/media/movies/X.mkv", lastPlayed := none,
    tmdbId := none }

/-- A watched movie last played at `100` (far in the model's past). -/
def exWatchedOld : WatchedMovie :=
  { name := "Y", path := some "/media/movies/Y.mkv", lastPlayed := some 100,
    tmdbId := none }

/-- A watched movie last played `100` seconds before the model instant
`1000000` (well within a 5-day grace period). -/
def exWatchedRecent : WatchedMovie :=
  { name := "R", path := some "/media/movies/R.mkv",
    lastPlayed := some 999900, tmdbId := none }

/-- A watched episode with no recorded last-played timestamp. -/
def exWatchedEpNoDate : WatchedEpisode :=
  { seriesName := some "S", path := some "/media/tv/S/e1.mkv",
    lastPlayed := none }

/-- The movie cache as populated from `exWorld`. -/
def exStMovies : MapperState :=
  { MapperState.init with
    moviesCache := some [(0, exMovieIdZero), (3, exMovieIdThree)] }

theorem removeOccsFuel_nil_pat (fuel : Nat) (l : List Char) :
    removeOccsFuel [] fuel l = l := by
  induction fuel generalizing l with
  | zero => cases l <;> rfl
  | succ n ih =>
    cases l with
    | nil => rfl
    | cons c cs =>
      rw [removeOccsFuel]
      simp [ih]

theorem removeOccs_nil_pat (l : List Char) : removeOccs [] l = l :=
  removeOccsFuel_nil_pat l.length l

theorem removeOccsFuel_of_not_containsSub (pat : List Char) (fuel : Nat)
    (l : List Char) (h : containsSub pat l = false) :
    removeOccsFuel pat fuel l = l := by
  induction fuel generalizing l with
  | zero => cases l <;> rfl
  | succ n ih =>
    cases l with
    | nil => rfl
    | cons c cs =>
      rw [containsSub] at h
      simp only [Bool.or_eq_false_iff] at h
      rw [removeOccsFuel]
      rw [if_neg]
      · rw [ih cs h.2]
      · rintro ⟨-, hpre⟩
        simp only [h.1] at hpre
        exact Bool.false_ne_true hpre

theorem removeOccs_of_not_containsSub (pat : List Char) (l : List Char)
    (h : containsSub pat l = false) : removeOccs pat l = l :=
  removeOccsFuel_of_not_containsSub pat l.length l h

theorem unquoteChars_of_no_pct : ∀ (l : List Char), '%' ∉ l → unquoteChars l = l
  | [], _ => rfl
  | [c], _ => rfl
  | [c, d], _ => rfl
  | c :: a :: b :: rest, h => by
    have hc : c ≠ '%' := fun hc => h (by simp [hc])
    have h2 : '%' ∉ (a :: b :: rest) := fun hm => h (List.mem_cons_of_mem c hm)
    show (if c = '%' ∧ isHexDigit a = true ∧ isHexDigit b = true then
        Char.ofNat (16 * hexVal a + hexVal b) :: unquoteChars rest
      else c :: unquoteChars (a :: b :: rest)) = c :: a :: b :: rest
    rw [if_neg (fun hcond => hc hcond.1)]
    rw [unquoteChars_of_no_pct (a :: b :: rest) h2]

theorem dropWhile_dropWhile (p : Char → Bool) (l : List Char) :
    (l.dropWhile p).dropWhile p = l.dropWhile p := by
  induction l with
  | nil => rfl
  | cons c cs ih =>
    by_cases h : p c
    · simp [List.dropWhile_cons, h, ih]
    · simp [List.dropWhile_cons, h]

theorem dropWhile_head_false (p : Char → Bool) (l : List Char) (c : Char)
    (cs : List Char) (h : l.dropWhile p = c :: cs) : p c = false := by
  induction l with
  | nil => simp at h
  | cons d ds ih =>
    by_cases hd : p d
    · rw [List.dropWhile_cons, if_pos hd] at h
      exact ih h
    · rw [List.dropWhile_cons, if_neg hd] at h
      cases h
      exact Bool.eq_false_iff.mpr hd

theorem dropWhile_suffix_of (p : Char → Bool) (l : List Char) :
    ∃ t, l = t ++ l.dropWhile p := by
  induction l with
  | nil => exact ⟨[], rfl⟩
  | cons c cs ih =>
    by_cases h : p c
    · obtain ⟨t, ht⟩ := ih
      refine ⟨c :: t, ?_⟩
      rw [List.dropWhile_cons, if_pos h]
      simpa using ht
    · exact ⟨[], by simp [List.dropWhile_cons, h]⟩

theorem stripSlashes_idem (l : List Char) :
    stripSlashes (stripSlashes l) = stripSlashes l := by
  set p : Char → Bool := (· == '/') with hp
  set u : List Char := l.dropWhile p with hu
  set v : List Char := u.reverse.dropWhile p with hv
  have hr : stripSlashes l = v.reverse := rfl
  have hA : v.reverse.dropWhile p = v.reverse := by
    cases hvr : v.reverse with
    | nil => simp
    | cons a as =>
      obtain ⟨t, ht⟩ := dropWhile_suffix_of p u.reverse
      have hu2 : u = v.reverse ++ t.reverse := by
        have := congrArg List.reverse ht
        simpa [hv] using this
      have hph : p a = false := by
        apply dropWhile_head_false p l a (as ++ t.reverse)
        rw [← hu, hu2, hvr]
        simp
      rw [List.dropWhile_cons, if_neg (by simp [hph])]
  rw [hr]
  show ((v.reverse.dropWhile p).reverse.dropWhile p).reverse = v.reverse
  rw [hA]
  simp only [List.reverse_reverse]
  rw [hv, dropWhile_dropWhile]

/-- C6 counterexample: `_normalize_path` is Python `str.replace`, which
removes every occurrence of the prefix substring, not only a leading one.
On the path `/a/media/movies/b` with prefix `/media/movies/` (which occurs
in the middle, not at the start) the code yields `ab`, while the spec's
strip-the-mount-prefix reading (a no-op here, since the path does not start
with the prefix) yields `a/media/movies/b`. -/
theorem C6_counterexample :
    normalize_path "/a/media/movies/b" "/media/movies/" = "ab" ∧
    normalize_path_spec "/a/media/movies/b" "/media/movies/" = "a/media/movies/b" ∧
    normalize_path "/a/media/movies/b" "/media/movies/" ≠
      normalize_path_spec "/a/media/movies/b" "/media/movies/" := by
  refine ⟨by decide, by decide, by decide⟩

/-- C6 (amended): `_normalize_path` removes every occurrence of the
configured mount prefix as a substring (a no-op exactly when the prefix
occurs nowhere in the path as a substring), then percent-decodes, then
strips leading/trailing path separators; in particular the two example
paths `/media/movies/The Matrix (1999)/The Matrix (1999) REMUX-2160p.mkv`
with prefix `/media/movies/` and `/movies/The Matrix (1999)/The Matrix
(1999) REMUX-2160p.mkv` with prefix `/movies/` both normalize to
`The Matrix (1999)/The Matrix (1999) REMUX-2160p.mkv` and therefore
match. -/
theorem C6_normalize_removes_all_occurrences :
    (∀ path pre : String, containsSub pre.data path.data = false →
        normalize_path path pre = normalize_path path "") ∧
    normalize_path
        "/media/movies/The Matrix (1999)/The Matrix (1999) REMUX-2160p.mkv"
        "/media/movies/" =
      "The Matrix (1999)/The Matrix (1999) REMUX-2160p.mkv" ∧
    normalize_path
        "/movies/The Matrix (1999)/The Matrix (1999) REMUX-2160p.mkv"
        "/movies/" =
      "The Matrix (1999)/The Matrix (1999) REMUX-2160p.mkv" := by
  refine ⟨?_, by decide, by decide⟩
  intro path pre h
  show (⟨stripSlashes (unquoteChars (removeOccs pre.data path.data))⟩ : String) =
    ⟨stripSlashes (unquoteChars (removeOccs [] path.data))⟩
  rw [removeOccs_of_not_containsSub pre.data path.data h, removeOccs_nil_pat]

/-- C6 witness: a concrete path in which the prefix occurs nowhere, so
prefix removal is a no-op. -/
theorem C6_witness :
    containsSub ("/media/movies/" : String).data ("/movies/X.mkv" : String).data
        = false ∧
    normalize_path "/movies/X.mkv" "/media/movies/" =
      normalize_path "/movies/X.mkv" "" :=
  ⟨by decide,
   C6_normalize_removes_all_occurrences.1 "/movies/X.mkv" "/media/movies/"
     (by decide)⟩

/-- C7 counterexample: `normalize` is not idempotent, because
percent-decoding is applied on every application.  `/movies/%2541.mkv`
with prefix `/movies/` first normalizes to `%41.mkv`; a second application
(with an empty prefix) decodes again and yields `A.mkv`. -/
theorem C7_counterexample :
    normalize_path (normalize_path "/movies/%2541.mkv" "/movies/") "" ≠
      normalize_path "/movies/%2541.mkv" "/movies/" := by decide

/-- C7 (amended): `normalize` is idempotent on every input whose first
normalization contains no `%` character (so the second percent-decode is a
no-op); in general a second application may percent-decode further. -/
theorem C7_normalize_idem_without_escape (path pre : String)
    (h : '%' ∉ (normalize_path path pre).data) :
    normalize_path (normalize_path path pre) "" = normalize_path path pre := by
  show (⟨stripSlashes (unquoteChars
      (removeOccs ("" : String).data (normalize_path path pre).data))⟩ : String) = _
  rw [show ("" : String).data = [] from rfl, removeOccs_nil_pat]
  rw [unquoteChars_of_no_pct _ h]
  show (⟨stripSlashes (stripSlashes
      (unquoteChars (removeOccs pre.data path.data)))⟩ : String) =
    normalize_path path pre
  rw [stripSlashes_idem]
  rfl

/-- C7 witness: a concrete escape-free path on which `normalize` is
idempotent. -/
theorem C7_witness :
    '%' ∉ (normalize_path "/movies/Heat (1995)/Heat (1995).mkv" "/movies/").data ∧
    normalize_path
        (normalize_path "/movies/Heat (1995)/Heat (1995).mkv" "/movies/") "" =
      normalize_path "/movies/Heat (1995)/Heat (1995).mkv" "/movies/" :=
  ⟨by decide,
   C7_normalize_idem_without_escape "/movies/Heat (1995)/Heat (1995).mkv"
     "/movies/" (by decide)⟩

/-- C4: in dry-run mode every delete operation — single movie delete,
single episode-file delete, and bulk episode-file delete — returns
success, issues zero network calls, and leaves all caches unchanged. -/
theorem C4_dry_run_no_effects (w : World) (st : MapperState)
    (movieId episodeFileId : Nat) (episodeFileIds : List Nat) :
    delete_radarr_movie w st movieId true = .ok (true, st, []) ∧
    delete_sonarr_episode_file w st episodeFileId true = .ok (true, st, []) ∧
    bulk_delete_sonarr_episode_files w st episodeFileIds true =
      .ok (true, st, []) :=
  ⟨rfl, rfl, rfl⟩

theorem filter_ne_of_not_any {α : Type} (d : List (Nat × α)) (k : Nat)
    (h : d.any (fun p => p.1 = k) = false) :
    d.filter (fun p => p.1 != k) = d := by
  induction d with
  | nil => rfl
  | cons q qs ih =>
    simp only [List.any_cons, Bool.or_eq_false_iff, decide_eq_false_iff_not] at h
    rw [List.filter_cons]
    rw [if_pos (by simp [h.1])]
    rw [ih (by simpa using h.2)]

theorem delete_movie_cache_as_map (st : MapperState) (movieId : Nat) :
    (match st.moviesCache with
      | some d =>
        if d ≠ [] ∧ d.any (fun p => p.1 = movieId) then
          { st with moviesCache := some (d.filter (fun p => p.1 != movieId)) }
        else st
      | none => st)
      = { st with
          moviesCache :=
            st.moviesCache.map (fun d => d.filter (fun p => p.1 != movieId)) } := by
  obtain ⟨mc, sc, ec, rtc, stc⟩ := st
  cases mc with
  | none => rfl
  | some d =>
    simp only [Option.map_some']
    split
    · rfl
    · rename_i h
      rw [Decidable.not_and_iff_or_not] at h
      rcases h with h | h
      · rw [Decidable.not_not] at h
        subst h
        rfl
      · rw [filter_ne_of_not_any d movieId (Bool.eq_false_iff.mpr h)]

/-- C8: caches are populated at most once unless invalidated — with every
cache populated, each getter answers from the cache with zero network
calls and an unchanged state; a successful (HTTP 200) real-mode movie
deletion removes exactly the deleted entry from the movie cache; a
successful real-mode episode-file deletion, single or bulk, clears the
entire episode cache; a non-200 response leaves every cache unchanged. -/
theorem C8_cache_discipline (w : World) (st : MapperState)
    (d : List (Nat × RadarrMovie)) (sd : List (Nat × SonarrSeries))
    (td : List (Nat × String)) (eps : List SonarrEpisode)
    (sid movieId episodeFileId : Nat) (episodeFileIds : List Nat)
    (status : Nat) :
    (st.moviesCache = some d → get_all_radarr_movies w st = .ok (d, st, [])) ∧
    (st.seriesCache = some sd → get_all_sonarr_series w st = .ok (sd, st, [])) ∧
    (st.episodesCache.lookup sid = some eps →
      get_sonarr_episodes w st sid = .ok (eps, st, [])) ∧
    (st.radarrTagsCache = some td → get_radarr_tags w st = .ok (td, st, [])) ∧
    (st.sonarrTagsCache = some td → get_sonarr_tags w st = .ok (td, st, [])) ∧
    (w.deleteMovieStatus movieId = .ok 200 →
      delete_radarr_movie w st movieId false =
        .ok (true,
          { st with
            moviesCache :=
              st.moviesCache.map (fun dd => dd.filter (fun p => p.1 != movieId)) },
          [Call.deleteMovie movieId])) ∧
    (w.deleteEpisodeFileStatus episodeFileId = .ok 200 →
      delete_sonarr_episode_file w st episodeFileId false =
        .ok (true, { st with episodesCache := [] },
          [Call.deleteEpisodeFile episodeFileId])) ∧
    (w.bulkDeleteEpisodeFilesStatus episodeFileIds = .ok 200 →
      bulk_delete_sonarr_episode_files w st episodeFileIds false =
        .ok (true, { st with episodesCache := [] },
          [Call.bulkDeleteEpisodeFiles episodeFileIds])) ∧
    (w.deleteMovieStatus movieId = .ok status → status ≠ 200 →
      delete_radarr_movie w st movieId false =
        .ok (false, st, [Call.deleteMovie movieId])) ∧
    (w.deleteEpisodeFileStatus episodeFileId = .ok status → status ≠ 200 →
      delete_sonarr_episode_file w st episodeFileId false =
        .ok (false, st, [Call.deleteEpisodeFile episodeFileId])) ∧
    (w.bulkDeleteEpisodeFilesStatus episodeFileIds = .ok status →
      status ≠ 200 →
      bulk_delete_sonarr_episode_files w st episodeFileIds false =
        .ok (false, st, [Call.bulkDeleteEpisodeFiles episodeFileIds])) := by
  refine ⟨?_, ?_, ?_, ?_, ?_, ?_, ?_, ?_, ?_, ?_, ?_⟩
  · intro h
    unfold get_all_radarr_movies
    rw [h]
  · intro h
    unfold get_all_sonarr_series
    rw [h]
  · intro h
    unfold get_sonarr_episodes
    rw [h]
  · intro h
    unfold get_radarr_tags
    rw [h]
  · intro h
    unfold get_sonarr_tags
    rw [h]
  · intro h
    unfold delete_radarr_movie
    rw [if_neg (by simp), h]
    simp only [delete_movie_cache_as_map]
    rw [if_pos trivial]
  · intro h
    unfold delete_sonarr_episode_file
    rw [if_neg (by simp), h]
    simp only []
    rw [if_pos trivial]
  · intro h
    unfold bulk_delete_sonarr_episode_files
    rw [if_neg (by simp), h]
    simp only []
    rw [if_pos trivial]
  · intro h hs
    unfold delete_radarr_movie
    rw [if_neg (by simp), h]
    simp only [if_neg hs]
  · intro h hs
    unfold delete_sonarr_episode_file
    rw [if_neg (by simp), h]
    simp only [if_neg hs]
  · intro h hs
    unfold bulk_delete_sonarr_episode_files
    rw [if_neg (by simp), h]
    simp only [if_neg hs]

/-- C8 witness: the cache contract evaluated at the concrete example world
and a fully populated mapper state. -/
theorem C8_witness :
    get_all_radarr_movies exWorld exStCached =
      .ok ([(3, exMovieIdThree)], exStCached, []) ∧
    delete_radarr_movie exWorld exStCached 3 false =
      .ok (true, { exStCached with moviesCache := some [] },
        [Call.deleteMovie 3]) ∧
    delete_sonarr_episode_file exWorld exStCached 9 false =
      .ok (true, { exStCached with episodesCache := [] },
        [Call.deleteEpisodeFile 9]) ∧
    bulk_delete_sonarr_episode_files exWorldFail exStCached [9] false =
      .ok (false, exStCached, [Call.bulkDeleteEpisodeFiles [9]]) := by
  have h := C8_cache_discipline exWorld exStCached [(3, exMovieIdThree)]
    [(2, { id := 2 })] [(4, "keep")] [] 2 3 9 [9] 200
  have h2 := C8_cache_discipline exWorldFail exStCached [(3, exMovieIdThree)]
    [(2, { id := 2 })] [(4, "keep")] [] 2 3 9 [9] 500
  refine ⟨h.1 rfl, ?_, ?_, ?_⟩
  · have := h.2.2.2.2.2.1 rfl
    rw [this]
    rfl
  · exact h.2.2.2.2.2.2.1 rfl
  · exact h2.2.2.2.2.2.2.2.2.2.2 rfl (by decide)


theorem process_movie_ok_stats (cfg : CleanupConfig) (ktag : Option Nat)
    (now : Int) (w : World) (m : WatchedMovie) (s : CleanupStats)
    (st : MapperState) (o : Outcome) (s' : CleanupStats) (st' : MapperState)
    (h : process_movie cfg ktag now w m s st = .ok (o, s', st')) :
    s' = applyMovieOutcome o s := by
  unfold process_movie at h
  repeat' split at h
  all_goals cases h
  all_goals simp [applyMovieOutcome]

theorem process_movie_error_stats (cfg : CleanupConfig) (ktag : Option Nat)
    (now : Int) (w : World) (m : WatchedMovie) (s : CleanupStats)
    (st : MapperState) (e : PyErr) (s' : CleanupStats)
    (h : process_movie cfg ktag now w m s st = .error (e, s')) :
    s' = { s with movies_eligible := s.movies_eligible + 1 } := by
  unfold process_movie at h
  repeat' split at h
  all_goals cases h
  all_goals rfl

theorem process_movie_no_date (cfg : CleanupConfig) (ktag : Option Nat)
    (now : Int) (w : World) (m : WatchedMovie) (s : CleanupStats)
    (st : MapperState) (h : m.lastPlayed = none) :
    process_movie cfg ktag now w m s st = .ok (.unknownSkip, s, st) := by
  unfold process_movie
  rw [h]

theorem process_movie_grace (cfg : CleanupConfig) (ktag : Option Nat)
    (now : Int) (w : World) (m : WatchedMovie) (s : CleanupStats)
    (st : MapperState) (lp : Int) (h : m.lastPlayed = some lp)
    (hg : is_past_grace_period lp now cfg.grace_period_days = false) :
    process_movie cfg ktag now w m s st = .ok (.graceSkip, s, st) := by
  unfold process_movie
  rw [h]
  simp only []
  rw [if_neg (by simp [hg])]

theorem process_movie_eligible (cfg : CleanupConfig) (ktag : Option Nat)
    (now : Int) (w : World) (m : WatchedMovie) (s : CleanupStats)
    (st : MapperState) (lp : Int) (h : m.lastPlayed = some lp)
    (hg : is_past_grace_period lp now cfg.grace_period_days = true) :
    (resultStats (process_movie cfg ktag now w m s st)).movies_eligible =
      s.movies_eligible + 1 ∧
    (∀ o s' st', process_movie cfg ktag now w m s st = .ok (o, s', st') →
      o.isEligible = true) := by
  constructor
  · unfold process_movie
    rw [h]
    simp only []
    rw [if_pos hg]
    repeat' split
    all_goals simp [resultStats]
  · intro o s' st' hp
    unfold process_movie at hp
    rw [h] at hp
    simp only [] at hp
    rw [if_pos hg] at hp
    repeat' split at hp
    all_goals cases hp
    all_goals rfl

theorem process_movie_not_found (cfg : CleanupConfig) (ktag : Option Nat)
    (now : Int) (w : World) (m : WatchedMovie) (s : CleanupStats)
    (st : MapperState) (lp : Int) (r : Option Nat) (st2 : MapperState)
    (h : m.lastPlayed = some lp)
    (hg : is_past_grace_period lp now cfg.grace_period_days = true)
    (hr : resolve_radarr_movie w cfg st (m.path.getD "unknown") m.tmdbId =
      .ok (r, st2))
    (ht : truthyNat r = false) :
    process_movie cfg ktag now w m s st =
      .ok (.notFoundSkip, applyMovieOutcome .notFoundSkip s, st2) := by
  unfold process_movie
  rw [h]
  simp only []
  rw [if_pos hg, hr]
  simp only []
  rw [if_neg (by simp [ht])]
  rfl

theorem process_movie_tag_skip (cfg : CleanupConfig) (ktag : Option Nat)
    (now : Int) (w : World) (m : WatchedMovie) (s : CleanupStats)
    (st : MapperState) (lp : Int) (r : Option Nat) (st2 st3 : MapperState)
    (movies : List (Nat × RadarrMovie)) (calls : List Call) (mv : RadarrMovie)
    (h : m.lastPlayed = some lp)
    (hg : is_past_grace_period lp now cfg.grace_period_days = true)
    (hr : resolve_radarr_movie w cfg st (m.path.getD "unknown") m.tmdbId =
      .ok (r, st2))
    (ht : truthyNat r = true)
    (hga : get_all_radarr_movies w st2 = .ok (movies, st3, calls))
    (hlk : movies.lookup (r.getD 0) = some mv)
    (hk : has_keep_tag mv.tags ktag = true) :
    process_movie cfg ktag now w m s st =
      .ok (.tagSkip, applyMovieOutcome .tagSkip s, st3) := by
  unfold process_movie
  rw [h]
  simp only []
  rw [if_pos hg, hr]
  simp only []
  rw [if_pos ht, hga]
  simp only []
  rw [hlk]
  simp only []
  rw [if_pos hk]
  rfl

theorem process_movie_delete_step (cfg : CleanupConfig) (ktag : Option Nat)
    (now : Int) (w : World) (m : WatchedMovie) (s : CleanupStats)
    (st : MapperState) (lp : Int) (r : Option Nat) (st2 st3 st4 : MapperState)
    (movies : List (Nat × RadarrMovie)) (calls calls2 : List Call)
    (mv : RadarrMovie) (succ : Bool)
    (h : m.lastPlayed = some lp)
    (hg : is_past_grace_period lp now cfg.grace_period_days = true)
    (hr : resolve_radarr_movie w cfg st (m.path.getD "unknown") m.tmdbId =
      .ok (r, st2))
    (ht : truthyNat r = true)
    (hga : get_all_radarr_movies w st2 = .ok (movies, st3, calls))
    (hlk : movies.lookup (r.getD 0) = some mv)
    (hk : has_keep_tag mv.tags ktag = false)
    (hd : delete_radarr_movie w st3 (r.getD 0) cfg.dry_run =
      .ok (succ, st4, calls2)) :
    process_movie cfg ktag now w m s st =
      .ok ((if succ then .deleted else .failedDel),
        applyMovieOutcome (if succ then .deleted else .failedDel) s, st4) := by
  unfold process_movie
  rw [h]
  simp only []
  rw [if_pos hg, hr]
  simp only []
  rw [if_pos ht, hga]
  simp only []
  rw [hlk]
  simp only []
  rw [if_neg (by simp [hk]), hd]
  simp only []
  cases succ
  · rw [if_neg (by simp)]
    rfl
  · rw [if_pos rfl]
    rfl

theorem process_movie_no_ktag_no_tag_skip (cfg : CleanupConfig) (now : Int)
    (w : World) (m : WatchedMovie) (s : CleanupStats) (st : MapperState)
    (o : Outcome) (s' : CleanupStats) (st' : MapperState)
    (h : process_movie cfg none now w m s st = .ok (o, s', st')) :
    o ≠ .tagSkip := by
  unfold process_movie at h
  repeat' split at h
  all_goals cases h
  all_goals simp_all [has_keep_tag]

theorem process_episode_ok_stats (cfg : CleanupConfig) (now : Int) (w : World)
    (ep : WatchedEpisode) (s : CleanupStats) (st : MapperState) (o : Outcome)
    (s' : CleanupStats) (st' : MapperState)
    (h : process_episode cfg now w ep s st = .ok (o, s', st')) :
    s' = applyEpisodeOutcome o s ∧ o ≠ .tagSkip := by
  unfold process_episode at h
  repeat' split at h
  all_goals cases h
  all_goals simp [applyEpisodeOutcome]

theorem process_episode_error_stats (cfg : CleanupConfig) (now : Int)
    (w : World) (ep : WatchedEpisode) (s : CleanupStats) (st : MapperState)
    (e : PyErr) (s' : CleanupStats)
    (h : process_episode cfg now w ep s st = .error (e, s')) :
    s' = { s with episodes_eligible := s.episodes_eligible + 1 } := by
  unfold process_episode at h
  repeat' split at h
  all_goals cases h
  all_goals rfl

theorem process_episode_no_date (cfg : CleanupConfig) (now : Int) (w : World)
    (ep : WatchedEpisode) (s : CleanupStats) (st : MapperState)
    (h : ep.lastPlayed = none) :
    process_episode cfg now w ep s st = .ok (.unknownSkip, s, st) := by
  unfold process_episode
  rw [h]


theorem movies_loop_invariant (cfg : CleanupConfig) (ktag : Option Nat)
    (now : Int) (w : World) (items : List WatchedMovie) :
    ∀ (s : CleanupStats) (st : MapperState) (s' : CleanupStats)
      (st' : MapperState),
      movies_loop cfg ktag now w items s st = .ok (s', st') →
      s'.movies_skipped_not_found + s'.movies_skipped_tag + s'.movies_deleted
          + s'.movies_failed + s.movies_eligible
        = s'.movies_eligible + (s.movies_skipped_not_found
          + s.movies_skipped_tag + s.movies_deleted + s.movies_failed)
      ∧ s'.movies_eligible ≤ s.movies_eligible + items.length
      ∧ s'.movies_watched = s.movies_watched
      ∧ s'.episodes_watched = s.episodes_watched
      ∧ s'.episodes_eligible = s.episodes_eligible
      ∧ s'.episodes_skipped_tag = s.episodes_skipped_tag
      ∧ s'.episodes_skipped_not_found = s.episodes_skipped_not_found
      ∧ s'.episodes_deleted = s.episodes_deleted
      ∧ s'.episodes_failed = s.episodes_failed := by
  induction items with
  | nil =>
    intro s st s' st' h
    cases h
    exact ⟨by omega, by simp, rfl, rfl, rfl, rfl, rfl, rfl, rfl⟩
  | cons m ms ih =>
    intro s st s' st' h
    unfold movies_loop at h
    cases hp : process_movie cfg ktag now w m s st with
    | error e =>
      rw [hp] at h
      cases h
    | ok v =>
      obtain ⟨o, s1, st1⟩ := v
      rw [hp] at h
      simp only [] at h
      have hs1 := process_movie_ok_stats cfg ktag now w m s st o s1 st1 hp
      have hrec := ih s1 st1 s' st' h
      subst hs1
      cases o <;> simp only [applyMovieOutcome, List.length_cons] at hrec ⊢ <;>
        omega

theorem episodes_loop_invariant (cfg : CleanupConfig) (now : Int) (w : World)
    (items : List WatchedEpisode) :
    ∀ (s : CleanupStats) (st : MapperState) (s' : CleanupStats)
      (st' : MapperState),
      episodes_loop cfg now w items s st = .ok (s', st') →
      s'.episodes_skipped_not_found + s'.episodes_skipped_tag
          + s'.episodes_deleted + s'.episodes_failed + s.episodes_eligible
        = s'.episodes_eligible + (s.episodes_skipped_not_found
          + s.episodes_skipped_tag + s.episodes_deleted + s.episodes_failed)
      ∧ s'.episodes_eligible ≤ s.episodes_eligible + items.length
      ∧ s'.episodes_skipped_tag = s.episodes_skipped_tag
      ∧ s'.episodes_watched = s.episodes_watched
      ∧ s'.movies_watched = s.movies_watched
      ∧ s'.movies_eligible = s.movies_eligible
      ∧ s'.movies_skipped_tag = s.movies_skipped_tag
      ∧ s'.movies_skipped_not_found = s.movies_skipped_not_found
      ∧ s'.movies_deleted = s.movies_deleted
      ∧ s'.movies_failed = s.movies_failed := by
  induction items with
  | nil =>
    intro s st s' st' h
    cases h
    exact ⟨by omega, by simp, rfl, rfl, rfl, rfl, rfl, rfl, rfl, rfl⟩
  | cons ep eps ih =>
    intro s st s' st' h
    unfold episodes_loop at h
    cases hp : process_episode cfg now w ep s st with
    | error e =>
      rw [hp] at h
      cases h
    | ok v =>
      obtain ⟨o, s1, st1⟩ := v
      rw [hp] at h
      simp only [] at h
      obtain ⟨hs1, hnt⟩ := process_episode_ok_stats cfg now w ep s st o s1 st1 hp
      have hrec := ih s1 st1 s' st' h
      subst hs1
      cases o <;>
        first
          | exact absurd rfl hnt
          | (simp only [applyEpisodeOutcome, List.length_cons] at hrec ⊢; omega)

theorem add_to_group_sum (gs : List (String × List WatchedEpisode))
    (n : String) (ep : WatchedEpisode) :
    ((add_to_group gs n ep).map (fun g => g.2.length)).sum
      = (gs.map (fun g => g.2.length)).sum + 1 := by
  induction gs with
  | nil => simp [add_to_group]
  | cons g gs ih =>
    obtain ⟨k, l⟩ := g
    unfold add_to_group
    by_cases hk : k = n
    · rw [if_pos hk]
      simp only [List.map_cons, List.sum_cons, List.length_append,
        List.length_singleton]
      omega
    · rw [if_neg hk]
      simp only [List.map_cons, List.sum_cons, ih]
      omega

theorem group_by_series_sum_aux (eps : List WatchedEpisode) :
    ∀ gs : List (String × List WatchedEpisode),
      ((eps.foldl (fun gs ep =>
          add_to_group gs (ep.seriesName.getD "Unknown") ep) gs).map
        (fun g => g.2.length)).sum
      = (gs.map (fun g => g.2.length)).sum + eps.length := by
  induction eps with
  | nil => intro gs; simp
  | cons ep eps ih =>
    intro gs
    simp only [List.foldl_cons, List.length_cons]
    rw [ih (add_to_group gs (ep.seriesName.getD "Unknown") ep)]
    rw [add_to_group_sum]
    omega

theorem flat_episodes_length (gs : List (String × List WatchedEpisode)) :
    (gs.foldr (fun g acc => g.2 ++ acc) []).length
      = (gs.map (fun g => g.2.length)).sum := by
  induction gs with
  | nil => rfl
  | cons g gs ih =>
    simp only [List.foldr_cons, List.length_append, List.map_cons,
      List.sum_cons, ih]

theorem cleanup_movies_invariant (cfg : CleanupConfig) (ktag : Option Nat)
    (now : Int) (w : World) (s : CleanupStats) (st : MapperState)
    (s' : CleanupStats) (st' : MapperState)
    (h : cleanup_movies cfg ktag now w s st = .ok (s', st')) :
    s'.movies_skipped_not_found + s'.movies_skipped_tag + s'.movies_deleted
        + s'.movies_failed + s.movies_eligible
      = s'.movies_eligible + (s.movies_skipped_not_found
        + s.movies_skipped_tag + s.movies_deleted + s.movies_failed)
    ∧ s'.movies_eligible ≤ s.movies_eligible + s'.movies_watched
    ∧ s'.episodes_watched = s.episodes_watched
    ∧ s'.episodes_eligible = s.episodes_eligible
    ∧ s'.episodes_skipped_tag = s.episodes_skipped_tag
    ∧ s'.episodes_skipped_not_found = s.episodes_skipped_not_found
    ∧ s'.episodes_deleted = s.episodes_deleted
    ∧ s'.episodes_failed = s.episodes_failed := by
  unfold cleanup_movies at h
  cases hw : w.watchedMovies with
  | error e =>
    rw [hw] at h
    cases h
  | ok items =>
    rw [hw] at h
    simp only [] at h
    have := movies_loop_invariant cfg ktag now w items
      { s with movies_watched := items.length } st s' st' h
    simp only [] at this
    obtain ⟨h1, h2, h3, h4, h5, h6, h7, h8, h9⟩ := this
    refine ⟨h1, ?_, h4, h5, h6, h7, h8, h9⟩
    rw [h3]
    exact h2

theorem cleanup_episodes_invariant (cfg : CleanupConfig) (now : Int)
    (w : World) (s : CleanupStats) (st : MapperState) (s' : CleanupStats)
    (st' : MapperState)
    (h : cleanup_episodes cfg now w s st = .ok (s', st')) :
    s'.episodes_skipped_not_found + s'.episodes_skipped_tag
        + s'.episodes_deleted + s'.episodes_failed + s.episodes_eligible
      = s'.episodes_eligible + (s.episodes_skipped_not_found
        + s.episodes_skipped_tag + s.episodes_deleted + s.episodes_failed)
    ∧ s'.episodes_eligible ≤ s.episodes_eligible + s'.episodes_watched
    ∧ s'.episodes_skipped_tag = s.episodes_skipped_tag
    ∧ s'.movies_watched = s.movies_watched
    ∧ s'.movies_eligible = s.movies_eligible
    ∧ s'.movies_skipped_tag = s.movies_skipped_tag
    ∧ s'.movies_skipped_not_found = s.movies_skipped_not_found
    ∧ s'.movies_deleted = s.movies_deleted
    ∧ s'.movies_failed = s.movies_failed := by
  unfold cleanup_episodes at h
  cases hw : w.watchedEpisodes with
  | error e =>
    rw [hw] at h
    cases h
  | ok items =>
    rw [hw] at h
    simp only [] at h
    have hlen : ((group_by_series items).foldr
        (fun g acc => g.2 ++ acc) []).length = items.length := by
      rw [flat_episodes_length]
      unfold group_by_series
      rw [group_by_series_sum_aux items []]
      simp
    have := episodes_loop_invariant cfg now w
      ((group_by_series items).foldr (fun g acc => g.2 ++ acc) [])
      { s with episodes_watched := items.length } st s' st' h
    simp only [] at this
    obtain ⟨h1, h2, h3, h4, h5, h6, h7, h8, h9, h10⟩ := this
    refine ⟨h1, ?_, h3, h5, h6, h7, h8, h9, h10⟩
    rw [h4, hlen] at *
    omega


/-- C1: grace-period eligibility is the pure strict check
`lastPlayed < now_utc - gracePeriodDays`: a timestamp exactly at the cutoff
is NOT eligible, a missing timestamp means the item is skipped as
unknown-state (no error, no counter), and an item with a timestamp is
counted eligible iff the strict inequality holds. -/
theorem C1_grace_period_strict (cfg : CleanupConfig) (ktag : Option Nat)
    (now lp : Int) (w : World) (m : WatchedMovie) (epi : WatchedEpisode)
    (s : CleanupStats) (st : MapperState) :
    (is_past_grace_period lp now cfg.grace_period_days = true ↔
      lp < now - cfg.grace_period_days * 86400) ∧
    (is_past_grace_period (now - cfg.grace_period_days * 86400) now
      cfg.grace_period_days = false) ∧
    (m.lastPlayed = none →
      process_movie cfg ktag now w m s st = .ok (.unknownSkip, s, st)) ∧
    (epi.lastPlayed = none →
      process_episode cfg now w epi s st = .ok (.unknownSkip, s, st)) ∧
    (m.lastPlayed = some lp →
      (resultStats (process_movie cfg ktag now w m s st)).movies_eligible
        = s.movies_eligible
          + (if lp < now - cfg.grace_period_days * 86400 then 1 else 0)) := by
  refine ⟨?_, ?_, process_movie_no_date cfg ktag now w m s st,
    process_episode_no_date cfg now w epi s st, ?_⟩
  · simp [is_past_grace_period]
  · simp [is_past_grace_period]
  · intro h
    by_cases hlt : lp < now - cfg.grace_period_days * 86400
    · rw [if_pos hlt]
      exact (process_movie_eligible cfg ktag now w m s st lp h
        (by simp [is_past_grace_period, hlt])).1
    · rw [if_neg hlt]
      rw [process_movie_grace cfg ktag now w m s st lp h
        (by simp [is_past_grace_period, hlt])]
      simp [resultStats]

/-- C1 witness: the no-timestamp item is skipped untouched; the old item is
counted eligible. -/
theorem C1_witness :
    process_movie exCfg (some 4) 1000000 exWorld exWatchedNoDate
        CleanupStats.init MapperState.init
      = .ok (.unknownSkip, CleanupStats.init, MapperState.init) ∧
    (resultStats (process_movie exCfg (some 4) 1000000 exWorld exWatchedOld
        CleanupStats.init MapperState.init)).movies_eligible
      = CleanupStats.init.movies_eligible
        + (if (100 : Int) < 1000000 - exCfg.grace_period_days * 86400
            then 1 else 0) :=
  ⟨(C1_grace_period_strict exCfg (some 4) 1000000 0 exWorld exWatchedNoDate
      exWatchedEpNoDate CleanupStats.init MapperState.init).2.2.1 rfl,
   (C1_grace_period_strict exCfg (some 4) 1000000 100 exWorld exWatchedOld
      exWatchedEpNoDate CleanupStats.init MapperState.init).2.2.2.2 rfl⟩

/-- C2: tag exclusion is fail-open — a label matching no tag
(case-insensitively) resolves to no id; with no resolved id nothing is ever
excluded (the per-movie pipeline can never classify an item tag-skipped),
and with a resolved id an item is excluded iff its tag set contains it. -/
theorem C2_tag_exclusion_fail_open (tags : List (Nat × String))
    (label : String) (itemTags : List Nat) (t : Nat) (cfg : CleanupConfig)
    (now : Int) (w : World) (m : WatchedMovie) (s : CleanupStats)
    (st : MapperState) (o : Outcome) (s' : CleanupStats) (st' : MapperState) :
    ((∀ p ∈ tags, lowerStr p.2 ≠ lowerStr label) →
      get_keep_tag_id tags label = none) ∧
    has_keep_tag itemTags none = false ∧
    (has_keep_tag itemTags (some t) = true ↔ t ∈ itemTags) ∧
    (process_movie cfg none now w m s st = .ok (o, s', st') →
      o ≠ .tagSkip) := by
  refine ⟨?_, rfl, ?_,
    process_movie_no_ktag_no_tag_skip cfg now w m s st o s' st'⟩
  · intro h
    unfold get_keep_tag_id
    rw [List.find?_eq_none.mpr]
    · rfl
    · intro p hp
      simp only [beq_iff_eq]
      exact h p hp
  · show itemTags.contains t = true ↔ t ∈ itemTags
    simp [List.contains, List.elem_iff]

/-- C2 witness: the empty tag list resolves to no id; tag set `{5}` with
keep-tag-id `5` matches; a pipeline outcome under an unresolved keep tag is
not a tag skip. -/
theorem C2_witness :
    get_keep_tag_id [] "keep" = none ∧
    (has_keep_tag [5] (some 5) = true ↔ 5 ∈ [5]) ∧
    Outcome.unknownSkip ≠ Outcome.tagSkip := by
  have h := C2_tag_exclusion_fail_open [] "keep" [5] 5 exCfg 1000000 exWorld
    exWatchedNoDate CleanupStats.init MapperState.init .unknownSkip
    CleanupStats.init MapperState.init
  exact ⟨h.1 (by simp), h.2.2.1, h.2.2.2 (by decide)⟩

/-- C3: the per-item checks run in the source's order, each skip terminal:
(1) a missing timestamp short-circuits everything; (2) within grace
short-circuits the catalog; (3) past grace always counts the item eligible;
(4) a falsy resolution is counted not-found before any tag check; (5) a
resolved movie with the keep tag is counted tag-skipped without a delete;
(6) otherwise the delete's boolean decides deleted vs failed; episodes
receive no tag check at all (their outcome is never a tag skip). -/
theorem C3_pipeline_order (cfg : CleanupConfig) (ktag : Option Nat)
    (now lp : Int) (w : World) (m : WatchedMovie) (epi : WatchedEpisode)
    (s : CleanupStats) (st st2 st3 st4 : MapperState) (r : Option Nat)
    (movies : List (Nat × RadarrMovie)) (calls calls2 : List Call)
    (mv : RadarrMovie) (succ : Bool) :
    (m.lastPlayed = none →
      process_movie cfg ktag now w m s st = .ok (.unknownSkip, s, st)) ∧
    (m.lastPlayed = some lp →
      is_past_grace_period lp now cfg.grace_period_days = false →
      process_movie cfg ktag now w m s st = .ok (.graceSkip, s, st)) ∧
    (m.lastPlayed = some lp →
      is_past_grace_period lp now cfg.grace_period_days = true →
      ∀ o s' st', process_movie cfg ktag now w m s st = .ok (o, s', st') →
        o.isEligible = true ∧ s' = applyMovieOutcome o s) ∧
    (m.lastPlayed = some lp →
      is_past_grace_period lp now cfg.grace_period_days = true →
      resolve_radarr_movie w cfg st (m.path.getD "unknown") m.tmdbId =
        .ok (r, st2) →
      truthyNat r = false →
      process_movie cfg ktag now w m s st =
        .ok (.notFoundSkip, applyMovieOutcome .notFoundSkip s, st2)) ∧
    (m.lastPlayed = some lp →
      is_past_grace_period lp now cfg.grace_period_days = true →
      resolve_radarr_movie w cfg st (m.path.getD "unknown") m.tmdbId =
        .ok (r, st2) →
      truthyNat r = true →
      get_all_radarr_movies w st2 = .ok (movies, st3, calls) →
      movies.lookup (r.getD 0) = some mv →
      has_keep_tag mv.tags ktag = true →
      process_movie cfg ktag now w m s st =
        .ok (.tagSkip, applyMovieOutcome .tagSkip s, st3)) ∧
    (m.lastPlayed = some lp →
      is_past_grace_period lp now cfg.grace_period_days = true →
      resolve_radarr_movie w cfg st (m.path.getD "unknown") m.tmdbId =
        .ok (r, st2) →
      truthyNat r = true →
      get_all_radarr_movies w st2 = .ok (movies, st3, calls) →
      movies.lookup (r.getD 0) = some mv →
      has_keep_tag mv.tags ktag = false →
      delete_radarr_movie w st3 (r.getD 0) cfg.dry_run =
        .ok (succ, st4, calls2) →
      process_movie cfg ktag now w m s st =
        .ok ((if succ then .deleted else .failedDel),
          applyMovieOutcome (if succ then .deleted else .failedDel) s,
          st4)) ∧
    (∀ o s' st', process_episode cfg now w epi s st = .ok (o, s', st') →
      o ≠ .tagSkip) := by
  refine ⟨process_movie_no_date cfg ktag now w m s st,
    fun h hg => process_movie_grace cfg ktag now w m s st lp h hg,
    ?_,
    fun h hg hr ht =>
      process_movie_not_found cfg ktag now w m s st lp r st2 h hg hr ht,
    fun h hg hr ht hga hlk hk =>
      process_movie_tag_skip cfg ktag now w m s st lp r st2 st3 movies calls
        mv h hg hr ht hga hlk hk,
    fun h hg hr ht hga hlk hk hd =>
      process_movie_delete_step cfg ktag now w m s st lp r st2 st3 st4 movies
        calls calls2 mv succ h hg hr ht hga hlk hk hd,
    fun o s' st' hp => (process_episode_ok_stats cfg now w epi s st o s' st'
      hp).2⟩
  intro h hg o s' st' hp
  exact ⟨(process_movie_eligible cfg ktag now w m s st lp h hg).2 o s' st' hp,
    process_movie_ok_stats cfg ktag now w m s st o s' st' hp⟩

/-- C3 witness: a within-grace movie is grace-skipped untouched; a concrete
episode outcome is not a tag skip. -/
theorem C3_witness :
    process_movie exCfg (some 4) 1000000 exWorld exWatchedRecent
        CleanupStats.init MapperState.init
      = .ok (.graceSkip, CleanupStats.init, MapperState.init) ∧
    Outcome.unknownSkip ≠ Outcome.tagSkip := by
  have h := C3_pipeline_order exCfg (some 4) 1000000 999900 exWorld
    exWatchedRecent exWatchedEpNoDate CleanupStats.init MapperState.init
    MapperState.init MapperState.init MapperState.init none [] [] []
    exMovieIdThree true
  exact ⟨h.2.1 rfl (by decide),
    h.2.2.2.2.2.2 .unknownSkip CleanupStats.init MapperState.init (by decide)⟩

/-- C5 counterexample: with a catalog movie whose database id is `0`, the
path match returns the non-absent result `some 0`, yet the orchestrator's
falsy check still attempts the TMDb fallback and accepts its result
(`some 3`) instead — so the chain does not accept the first non-absent
result as claimed. -/
theorem C5_counterexample :
    Except.map (fun v => v.1) (find_radarr_movie_by_path exWorld exCfg
        MapperState.init "/media/movies/X.mkv") = .ok (some 0) ∧
    Except.map (fun v => v.1) (resolve_radarr_movie exWorld exCfg
        MapperState.init "/media/movies/X.mkv" (some "7")) = .ok (some 3) ∧
    (some 3 : Option Nat) ≠ some 0 :=
  ⟨by decide, by decide, by decide⟩

/-- C5 (amended): the two-step chain treats a result as absent when it is
Python-falsy (no result, or catalog id `0`): a truthy path match is
accepted as-is; on a falsy path match the TMDb fallback runs only when the
item carries a non-empty provider id, and its result replaces the first;
an error from the path match propagates. -/
theorem C5_resolution_chain (w : World) (cfg : CleanupConfig)
    (st st1 : MapperState) (moviePath : String) (tmdbId : Option String)
    (tid : String) (r0 : Option Nat) (k : Nat) (e : PyErr) :
    (find_radarr_movie_by_path w cfg st moviePath = .ok (some k, st1) →
      k ≠ 0 →
      resolve_radarr_movie w cfg st moviePath tmdbId = .ok (some k, st1)) ∧
    (find_radarr_movie_by_path w cfg st moviePath = .ok (r0, st1) →
      truthyNat r0 = false → (tmdbId = none ∨ tmdbId = some "") →
      resolve_radarr_movie w cfg st moviePath tmdbId = .ok (r0, st1)) ∧
    (find_radarr_movie_by_path w cfg st moviePath = .ok (r0, st1) →
      truthyNat r0 = false → tid ≠ "" →
      resolve_radarr_movie w cfg st moviePath (some tid) =
        find_radarr_movie_by_tmdb w st1 tid) ∧
    (find_radarr_movie_by_path w cfg st moviePath = .error e →
      resolve_radarr_movie w cfg st moviePath tmdbId = .error e) := by
  refine ⟨?_, ?_, ?_, ?_⟩
  · intro h hk
    unfold resolve_radarr_movie
    rw [h]
    simp only []
    rw [if_pos (by simp [truthyNat, hk])]
  · intro h ht hcase
    unfold resolve_radarr_movie
    rw [h]
    simp only []
    rw [if_neg (by simp [ht])]
    rcases hcase with hc | hc <;> rw [hc] <;> rfl
  · intro h ht htid
    unfold resolve_radarr_movie
    rw [h]
    simp only []
    rw [if_neg (by simp [ht])]
    rw [if_pos htid]
  · intro h
    unfold resolve_radarr_movie
    rw [h]

/-- C5 witness: a truthy path match (id `3`) is accepted without any
fallback. -/
theorem C5_witness :
    resolve_radarr_movie exWorld exCfg MapperState.init
        "/media/movies/Y.mkv" none = .ok (some 3, exStMovies) :=
  (C5_resolution_chain exWorld exCfg MapperState.init exStMovies
    "/media/movies/Y.mkv" none "x" none 3 .keyError).1 (by decide) (by decide)

/-- C9: a transport error from either phase propagates out of the run while
the statistics collected so far are still the ones emitted; a completed run
emits its final statistics; a lookup over an available catalog never
errors — "no match" is the normal `none` value on the success side, a
different constructor from a transport error. -/
theorem C9_transport_vs_no_match (cfg : CleanupConfig) (ktag : Option Nat)
    (now : Int) (w : World) (e e' : PyErr) (s1 s2 : CleanupStats)
    (st st1 st2 : MapperState) (d : List (Nat × RadarrMovie)) (p : String) :
    (cleanup_movies cfg ktag now w CleanupStats.init MapperState.init =
        .error (e, s1) →
      run_cleanup cfg ktag now w = (.error e, s1)) ∧
    (cleanup_movies cfg ktag now w CleanupStats.init MapperState.init =
        .ok (s1, st1) →
      cleanup_episodes cfg now w s1 st1 = .error (e, s2) →
      run_cleanup cfg ktag now w = (.error e, s2)) ∧
    (cleanup_movies cfg ktag now w CleanupStats.init MapperState.init =
        .ok (s1, st1) →
      cleanup_episodes cfg now w s1 st1 = .ok (s2, st2) →
      run_cleanup cfg ktag now w = (.ok s2, s2)) ∧
    (st.moviesCache = some d →
      find_radarr_movie_by_path w cfg st p =
        .ok ((d.find? (fun q => q.2.hasFile &&
            (normalize_path q.2.path cfg.radarr_pre ==
              normalize_path p cfg.jellyfin_movie_pre))).map (fun q => q.1),
          st)) ∧
    (st.moviesCache = none → w.radarrMovies = .error e' →
      find_radarr_movie_by_path w cfg st p = .error e') := by
  refine ⟨?_, ?_, ?_, ?_, ?_⟩
  · intro h
    unfold run_cleanup
    rw [h]
  · intro h1 h2
    unfold run_cleanup
    rw [h1]
    simp only []
    rw [h2]
  · intro h1 h2
    unfold run_cleanup
    rw [h1]
    simp only []
    rw [h2]
  · intro h
    unfold find_radarr_movie_by_path get_all_radarr_movies
    rw [h]
    simp only []
    cases hf : d.find? (fun q => q.2.hasFile &&
        (normalize_path q.2.path cfg.radarr_pre ==
          normalize_path p cfg.jellyfin_movie_pre)) with
    | none => rfl
    | some q => rfl
  · intro h he
    unfold find_radarr_movie_by_path get_all_radarr_movies
    rw [h]
    simp only []
    rw [he]

/-- C9 witness: a run whose episode listing raises aborts with the
movie-phase statistics still emitted; a populated cache with no matching
path returns a normal `none`. -/
theorem C9_witness :
    run_cleanup exCfg (some 4) 1000000 exWorldEpErr =
      (.error (.transport 503), CleanupStats.init) ∧
    find_radarr_movie_by_path exWorld exCfg exStCached
        "/media/movies/Nope.mkv" = .ok (none, exStCached) := by
  have h1 := (C9_transport_vs_no_match exCfg (some 4) 1000000 exWorldEpErr
    (.transport 503) (.transport 0) CleanupStats.init CleanupStats.init
    MapperState.init MapperState.init MapperState.init [] "x").2.1
  have h2 := (C9_transport_vs_no_match exCfg (some 4) 1000000 exWorld
    (.transport 0) (.transport 0) CleanupStats.init CleanupStats.init
    exStCached MapperState.init MapperState.init [(3, exMovieIdThree)]
    "/media/movies/Nope.mkv").2.2.2.1
  refine ⟨h1 (by decide) (by decide), ?_⟩
  rw [h2 rfl]
  decide

/-- C10: after every run that completes without an escaping exception,
movies_skipped_not_found + movies_skipped_tag + movies_deleted +
movies_failed = movies_eligible ≤ movies_watched; likewise
episodes_skipped_not_found + episodes_deleted + episodes_failed =
episodes_eligible ≤ episodes_watched; and episodes_skipped_tag is 0. -/
theorem C10_stats_accounting (cfg : CleanupConfig) (ktag : Option Nat)
    (now : Int) (w : World) (s : CleanupStats)
    (h : (run_cleanup cfg ktag now w).1 = .ok s) :
    s.movies_skipped_not_found + s.movies_skipped_tag + s.movies_deleted
        + s.movies_failed = s.movies_eligible
    ∧ s.movies_eligible ≤ s.movies_watched
    ∧ s.episodes_skipped_not_found + s.episodes_deleted + s.episodes_failed
        = s.episodes_eligible
    ∧ s.episodes_eligible ≤ s.episodes_watched
    ∧ s.episodes_skipped_tag = 0 := by
  unfold run_cleanup at h
  cases hm : cleanup_movies cfg ktag now w CleanupStats.init
      MapperState.init with
  | error e =>
    obtain ⟨e1, sx⟩ := e
    rw [hm] at h
    cases h
  | ok v =>
    obtain ⟨s1, st1⟩ := v
    rw [hm] at h
    simp only [] at h
    cases he : cleanup_episodes cfg now w s1 st1 with
    | error e2 =>
      obtain ⟨e1, sx⟩ := e2
      rw [he] at h
      cases h
    | ok v2 =>
      obtain ⟨s2, st2⟩ := v2
      rw [he] at h
      simp only [] at h
      cases h
      have hm1 := cleanup_movies_invariant cfg ktag now w CleanupStats.init
        MapperState.init s1 st1 hm
      have he1 := cleanup_episodes_invariant cfg now w s1 st1 s st2 he
      simp only [CleanupStats.init] at hm1
      obtain ⟨a1, a2, a3, a4, a5, a6, a7⟩ := hm1
      obtain ⟨b1, b2, b3, b4, b5, b6, b7, b8, b9⟩ := he1
      refine ⟨?_, ?_, ?_, ?_, ?_⟩ <;> omega

/-- C10 witness: the empty run satisfies the accounting equations. -/
theorem C10_witness :
    (run_cleanup exCfg (some 4) 1000000 exWorld).1 = .ok CleanupStats.init ∧
    (CleanupStats.init.movies_skipped_not_found
        + CleanupStats.init.movies_skipped_tag
        + CleanupStats.init.movies_deleted + CleanupStats.init.movies_failed
        = CleanupStats.init.movies_eligible
      ∧ CleanupStats.init.movies_eligible ≤ CleanupStats.init.movies_watched
      ∧ CleanupStats.init.episodes_skipped_not_found
          + CleanupStats.init.episodes_deleted
          + CleanupStats.init.episodes_failed
          = CleanupStats.init.episodes_eligible
      ∧ CleanupStats.init.episodes_eligible
          ≤ CleanupStats.init.episodes_watched
      ∧ CleanupStats.init.episodes_skipped_tag = 0) :=
  ⟨by decide,
   C10_stats_accounting exCfg (some 4) 1000000 exWorld CleanupStats.init
     (by decide)⟩

end MediaPipeline
